import Mathlib

/-!
Verification of the Selenium action-loop plugin
(`src/plugins/Selenium/selenium_plugin.py`).

We shallowly embed the plugin's control flow. External effects (browser
driver calls, reasoning-service calls, sleeps) are recorded in an event
trace; Python exceptions are modelled with `Except PyError`. The
reasoning service and the page contents are uninterpreted parameters,
collected in an `Env` record:
  * `capture k` — outcome of `capture_current_page` on tick `k`,
  * `decisions k` — the `WebAction` parsed from the decision call on
    tick `k` (the pydantic schema guarantees a parsed `WebAction`; the
    `action` field is carried as its raw string value so that
    out-of-taxonomy values are representable),
  * `pages k` — elements returned by `driver.find_elements` on tick `k`,
  * `matchOracle` — integer returned by the element-matching call of
    `match_element_idx`.
-/

/-- Python exceptions that the embedded code can raise. -/
inductive PyError where
  | indexError
  | valueError (msg : String)
  | webDriverError (msg : String)
  deriving DecidableEq, Repr

/-- Observable effects of the plugin: browser mutations, service calls,
sleeps. -/
inductive Event where
  | sleepInterTick
  | sleepWait
  | capture
  | decisionCall
  | resolverCall
  | click (ref : String)
  | sendKeys (ref : String) (keys : String)
  | navigate (url : String)
  deriving DecidableEq, Repr

/-- The `selenium.webdriver.common.keys.Keys.RETURN` control key. -/
def Keys.RETURN : String := ""

/-- A DOM element as seen through the selenium driver: its visible text,
its `name` and `placeholder` attributes (absent attributes are `none`),
its visibility (`is_displayed`), and its string rendering `ref` (the
`repr` selenium prints when the element is formatted into a message). -/
structure WebElement where
  text : String
  name : Option String
  placeholder : Option String
  displayed : Bool
  ref : String
  deriving DecidableEq, Repr

/-- The raw string values of the `WebActionType` enum. -/
def WebActionType.CLICK : String := "click"

def WebActionType.TYPE_TEXT : String := "type_text"

def WebActionType.TYPE_ENTER : String := "type_enter"

def WebActionType.WAIT : String := "wait"

def WebActionType.NONE : String := "none"

/-- The `WebAction` pydantic model: `{action, target, content,
termination_message}`. -/
structure WebAction where
  action : String
  target : String
  content : String
  termination_message : String
  deriving DecidableEq, Repr

/-- The dictionaries built by `match_clickable` / `match_input` and sent
to the reasoning service: `{"idx": i, "text": ...}` for clickables,
`{"idx": i, "name": ..., "placeholder": ...}` for inputs. -/
inductive ElemDict where
  | clickable (idx : Nat) (text : String)
  | input (idx : Nat) (name : Option String) (placeholder : Option String)
  deriving DecidableEq, Repr

/-- The elements `driver.find_elements` returns on one tick, per tag. -/
structure PageState where
  buttons : List WebElement
  anchors : List WebElement
  inputs : List WebElement

/-- The uninterpreted environment: browser pages and reasoning-service
replies, indexed by tick. -/
structure Env where
  capture : Nat → Except PyError Unit
  decisions : Nat → WebAction
  pages : Nat → PageState
  matchOracle : List ElemDict → String → Int

/-- Python list indexing `xs[i]`: a negative index counts from the end;
an index outside `[-len, len)` raises `IndexError`. -/
def pyGet {α : Type} (xs : List α) (i : Int) : Except PyError α :=
  let j : Int := if i < 0 then i + xs.length else i
  if j < 0 then .error .indexError
  else
    match xs.get? j.toNat with
    | some x => .ok x
    | none => .error .indexError

/-- Embeds `match_element_idx`: one reasoning-service call; the returned integer
is passed through without any validation. -/
def match_element_idx (env : Env) (elements : List ElemDict) (target : String) :
    List Event × Int :=
  ([.resolverCall], env.matchOracle elements target)

/-- The descriptor list `match_clickable` builds: visible elements only,
each carrying its index `i` from `enumerate` over the UNFILTERED list. -/
def clickableDicts (elements : List WebElement) : List ElemDict :=
  (elements.enum.filter (fun p => p.2.displayed)).map
    (fun p => ElemDict.clickable p.1 p.2.text)

/-- The descriptor list `match_input` builds. -/
def inputDicts (elements : List WebElement) : List ElemDict :=
  (elements.enum.filter (fun p => p.2.displayed)).map
    (fun p => ElemDict.input p.1 p.2.name p.2.placeholder)

/-- Embeds `match_clickable`: build the visible-element dictionaries, ask the
service for an index, and return `elements[idx]` over the unfiltered
list. -/
def match_clickable (env : Env) (elements : List WebElement) (target : String) :
    List Event × Except PyError WebElement :=
  let elements_dicts := clickableDicts elements
  let r := match_element_idx env elements_dicts target
  (r.1, pyGet elements r.2)

/-- Embeds `match_input`: same shape as `match_clickable` with input
dictionaries. -/
def match_input (env : Env) (elements : List WebElement) (target : String) :
    List Event × Except PyError WebElement :=
  let elements_dicts := inputDicts elements
  let r := match_element_idx env elements_dicts target
  (r.1, pyGet elements r.2)

/-- Embeds `execute_web_action`: dispatch on the action kind; each branch
mirrors the corresponding branch of the Python `if/elif` chain,
including the final `raise ValueError` branch. -/
def execute_web_action (env : Env) (k : Nat) (action : WebAction) :
    List Event × Except PyError String :=
  if action.action = WebActionType.CLICK then
    let elements := (env.pages k).buttons ++ (env.pages k).anchors
    match match_clickable env elements action.target with
    | (evs, .error e) => (evs, .error e)
    | (evs, .ok element) =>
        (evs ++ [.click element.ref],
         .ok ("Clicked the element: " ++ element.ref))
  else if action.action = WebActionType.TYPE_TEXT then
    let elements := (env.pages k).inputs
    match match_input env elements action.target with
    | (evs, .error e) => (evs, .error e)
    | (evs, .ok element) =>
        (evs ++ [.sendKeys element.ref action.content],
         .ok ("Typed '" ++ action.content ++ "' in the input field: " ++
              element.ref))
  else if action.action = WebActionType.TYPE_ENTER then
    let elements := (env.pages k).inputs
    match match_input env elements action.target with
    | (evs, .error e) => (evs, .error e)
    | (evs, .ok element) =>
        (evs ++ [.sendKeys element.ref Keys.RETURN],
         .ok ("Pressed Enter in the input field: " ++ element.ref))
  else if action.action = WebActionType.WAIT then
    ([.sleepWait], .ok "Waiting...")
  else if action.action = WebActionType.NONE then
    ([], .ok action.termination_message)
  else
    ([], .error (.valueError ("Unsupported action type: " ++ action.action)))

/-- Embeds `get_web_action`: capture the page (may raise), then one decision
call returning the parsed `WebAction`. -/
def get_web_action (env : Env) (k : Nat) : List Event × Except PyError WebAction :=
  match env.capture k with
  | .error e => ([.capture], .error e)
  | .ok _ => ([.capture, .decisionCall], .ok (env.decisions k))

/-- One iteration of the `while` loop in `perform_web_action` (a tick):
the 0.2-unit sleep, `get_web_action`, then `execute_web_action`. -/
def tick (env : Env) (k : Nat) : List Event × Except PyError (WebAction × String) :=
  match get_web_action env k with
  | (evs1, .error e) => (Event.sleepInterTick :: evs1, .error e)
  | (evs1, .ok action) =>
      match execute_web_action env k action with
      | (evs2, .error e) => (Event.sleepInterTick :: (evs1 ++ evs2), .error e)
      | (evs2, .ok message) =>
          (Event.sleepInterTick :: (evs1 ++ evs2), .ok (action, message))

/-- The message returned when the attempt ceiling is passed. -/
def maxAttemptsMessage : String :=
  "Max attempts reached. Could not complete the action."

/-- The loop of `perform_web_action`, running tick `k` next with
`remaining` attempts left before `current_attempt > max_attempts`
triggers the exhaustion return (which performs no further effects). -/
def runAux (env : Env) : Nat → Nat → List Event × Except PyError String
  | 0, _ => ([], .ok maxAttemptsMessage)
  | remaining + 1, k =>
      match tick env k with
      | (evs, .error e) => (evs, .error e)
      | (evs, .ok (action, _message)) =>
          if action.action = WebActionType.NONE then
            (evs, .ok action.termination_message)
          else
            let r := runAux env remaining (k + 1)
            (evs ++ r.1, r.2)

/-- Embeds `perform_web_action`: `max_attempts = 15`, ticks numbered from 0. -/
def perform_web_action (env : Env) : List Event × Except PyError String :=
  runAux env 15 0

/-- Embeds `open_web_page`: `driver.get(url)` (whose outcome is the
uninterpreted `navRes`; an exception propagates), then the fixed
confirmation string. -/
def open_web_page (navRes : Except PyError Unit) (url : String) :
    List Event × Except PyError String :=
  match navRes with
  | .error e => ([.navigate url], .error e)
  | .ok _ =>
      ([.navigate url], .ok "Web page opened. You may now perform actions.")

/-! ### Event counting -/

/-- The browser driver's action-performing methods: `click` and
`send_keys`. -/
def Event.isActionCall : Event → Bool
  | .click _ => true
  | .sendKeys _ _ => true
  | _ => false

/-- Any browser mutation: click, keystrokes, or navigation. -/
def Event.isBrowserMutation : Event → Bool
  | .click _ => true
  | .sendKeys _ _ => true
  | .navigate _ => true
  | _ => false

def Event.isCapture : Event → Bool
  | .capture => true
  | _ => false

def Event.isDecisionCall : Event → Bool
  | .decisionCall => true
  | _ => false

def Event.isInterTickSleep : Event → Bool
  | .sleepInterTick => true
  | _ => false

/-- Number of events in a trace satisfying `p`. -/
def countEvents (p : Event → Bool) (evs : List Event) : Nat :=
  (evs.filter p).length

lemma countEvents_append (p : Event → Bool) (xs ys : List Event) :
    countEvents p (xs ++ ys) = countEvents p xs + countEvents p ys := by
  simp [countEvents, List.filter_append]

lemma countEvents_nil (p : Event → Bool) : countEvents p [] = 0 := rfl

/-! ### Per-operation event lemmas -/

/-- The embedded `execute_web_action` makes at most one driver action call, and emits
no capture, decision-service or inter-tick-sleep event. -/
lemma execute_event_counts (env : Env) (k : Nat) (a : WebAction) :
    countEvents Event.isActionCall (execute_web_action env k a).1 ≤ 1 ∧
    countEvents Event.isCapture (execute_web_action env k a).1 = 0 ∧
    countEvents Event.isDecisionCall (execute_web_action env k a).1 = 0 ∧
    countEvents Event.isInterTickSleep (execute_web_action env k a).1 = 0 := by
  unfold execute_web_action
  split_ifs
  · rcases hp : match_clickable env ((env.pages k).buttons ++ (env.pages k).anchors) a.target
      with ⟨evs, r⟩
    have hevs : evs = [Event.resolverCall] := by
      have : (match_clickable env ((env.pages k).buttons ++ (env.pages k).anchors) a.target).1
          = [Event.resolverCall] := rfl
      rw [hp] at this; exact this
    cases r <;> simp [hp, hevs, countEvents, Event.isActionCall, Event.isCapture,
      Event.isDecisionCall, Event.isInterTickSleep]
  · rcases hp : match_input env (env.pages k).inputs a.target with ⟨evs, r⟩
    have hevs : evs = [Event.resolverCall] := by
      have : (match_input env (env.pages k).inputs a.target).1 = [Event.resolverCall] := rfl
      rw [hp] at this; exact this
    cases r <;> simp [hp, hevs, countEvents, Event.isActionCall, Event.isCapture,
      Event.isDecisionCall, Event.isInterTickSleep]
  · rcases hp : match_input env (env.pages k).inputs a.target with ⟨evs, r⟩
    have hevs : evs = [Event.resolverCall] := by
      have : (match_input env (env.pages k).inputs a.target).1 = [Event.resolverCall] := rfl
      rw [hp] at this; exact this
    cases r <;> simp [hp, hevs, countEvents, Event.isActionCall, Event.isCapture,
      Event.isDecisionCall, Event.isInterTickSleep]
  · simp [countEvents, Event.isActionCall, Event.isCapture,
      Event.isDecisionCall, Event.isInterTickSleep]
  · simp [countEvents]
  · simp [countEvents]

/-- When the page capture succeeds, a tick is: the inter-tick sleep, the
capture, one decision call, then exactly the effects of
`execute_web_action` on that tick's decision; the tick's result pairs the
decision with the executor's message (or propagates its error). -/
lemma tick_eq_of_capture_ok (env : Env) (k : Nat) (hc : env.capture k = Except.ok ()) :
    tick env k =
      (Event.sleepInterTick :: Event.capture :: Event.decisionCall ::
          (execute_web_action env k (env.decisions k)).1,
        (execute_web_action env k (env.decisions k)).2.map
          (fun m => (env.decisions k, m))) := by
  unfold tick get_web_action
  rw [hc]
  rcases he : execute_web_action env k (env.decisions k) with ⟨evs2, r2⟩
  cases r2 <;> simp [he, Except.map]

/-- When the page capture fails, the tick stops at the capture. -/
lemma tick_eq_of_capture_error (env : Env) (k : Nat) (e : PyError)
    (hc : env.capture k = Except.error e) :
    tick env k = ([Event.sleepInterTick, Event.capture], Except.error e) := by
  unfold tick get_web_action
  rw [hc]

/-- A tick that produced a decision/message pair has exactly one
decision-service call, one capture and one inter-tick sleep, and at most
one driver action call. -/
lemma tick_counts_ok (env : Env) (k : Nat) (evs : List Event) (a : WebAction) (m : String)
    (h : tick env k = (evs, Except.ok (a, m))) :
    countEvents Event.isDecisionCall evs = 1 ∧
    countEvents Event.isCapture evs = 1 ∧
    countEvents Event.isInterTickSleep evs = 1 ∧
    countEvents Event.isActionCall evs ≤ 1 := by
  have hx := execute_event_counts env k (env.decisions k)
  cases hc : env.capture k with
  | error e =>
      rw [tick_eq_of_capture_error env k e hc] at h
      simp at h
  | ok u =>
      cases u
      rw [tick_eq_of_capture_ok env k hc] at h
      rcases he : execute_web_action env k (env.decisions k) with ⟨evs2, r2⟩
      rw [he] at h hx
      cases r2 with
      | error e => simp [Except.map] at h
      | ok msg =>
          simp only [Except.map, Prod.mk.injEq] at h
          rcases h with ⟨hevs, -⟩
          subst hevs
          simp only [countEvents, List.filter, Event.isDecisionCall, Event.isCapture,
            Event.isInterTickSleep, Event.isActionCall] at hx ⊢
          simp_all [countEvents]

/-- Any tick, whatever its outcome, makes at most one driver action
call. -/
lemma tick_actionCalls_le_one (env : Env) (k : Nat) :
    countEvents Event.isActionCall (tick env k).1 ≤ 1 := by
  have hx := (execute_event_counts env k (env.decisions k)).1
  cases hc : env.capture k with
  | error e =>
      rw [tick_eq_of_capture_error env k e hc]
      simp [countEvents, Event.isActionCall]
  | ok u =>
      cases u
      rw [tick_eq_of_capture_ok env k hc]
      simpa [countEvents, Event.isActionCall] using hx

/-! ### Loop lemmas -/

/-- Tick `k` completed with a decision that is not `none`. -/
def tickOkNonNone (env : Env) (k : Nat) : Prop :=
  ∃ evs a m, tick env k = (evs, Except.ok (a, m)) ∧
    a.action ≠ WebActionType.NONE

lemma runAux_tick_error (env : Env) (r k : Nat) (evs : List Event) (e : PyError)
    (h : tick env k = (evs, Except.error e)) :
    runAux env (r + 1) k = (evs, Except.error e) := by
  unfold runAux
  rw [h]

lemma runAux_tick_none (env : Env) (r k : Nat) (evs : List Event)
    (a : WebAction) (m : String)
    (h : tick env k = (evs, Except.ok (a, m)))
    (hn : a.action = WebActionType.NONE) :
    runAux env (r + 1) k = (evs, Except.ok a.termination_message) := by
  unfold runAux
  rw [h]
  simp [hn]

lemma runAux_tick_step (env : Env) (r k : Nat) (evs : List Event)
    (a : WebAction) (m : String)
    (h : tick env k = (evs, Except.ok (a, m)))
    (hn : a.action ≠ WebActionType.NONE) :
    runAux env (r + 1) k =
      (evs ++ (runAux env r (k + 1)).1, (runAux env r (k + 1)).2) := by
  conv_lhs => rw [runAux]
  rw [h]
  simp [hn]

/-- Walking past a prefix of completed, non-terminal ticks does not
change the loop's final result. -/
lemma runAux_result_reach (env : Env) :
    ∀ (t r k : Nat), t ≤ r → (∀ j, j < t → tickOkNonNone env (k + j)) →
    (runAux env r k).2 = (runAux env (r - t) (k + t)).2 := by
  intro t
  induction t with
  | zero => intro r k _ _; simp
  | succ t ih =>
      intro r k hle hpre
      obtain ⟨r', rfl⟩ : ∃ r', r = r' + 1 := ⟨r - 1, by omega⟩
      obtain ⟨evs, a, m, htick, hn⟩ := hpre 0 (by omega)
      rw [Nat.add_zero] at htick
      rw [runAux_tick_step env r' k evs a m htick hn]
      have := ih r' (k + 1) (by omega) (fun j hj => by
        have := hpre (j + 1) (by omega)
        rwa [show k + (j + 1) = k + 1 + j by omega] at this)
      simpa [show r' + 1 - (t + 1) = r' - t by omega,
        show k + 1 + t = k + (t + 1) by omega] using this

/-- When every tick of the budget completes with a non-terminal
decision, the loop returns the exhaustion message and the trace holds
exactly one decision call, capture and inter-tick sleep per tick, and at
most one driver action call per tick. -/
lemma runAux_exhaust (env : Env) :
    ∀ (r k : Nat), (∀ j, j < r → tickOkNonNone env (k + j)) →
    (runAux env r k).2 = Except.ok maxAttemptsMessage ∧
    countEvents Event.isDecisionCall (runAux env r k).1 = r ∧
    countEvents Event.isCapture (runAux env r k).1 = r ∧
    countEvents Event.isInterTickSleep (runAux env r k).1 = r ∧
    countEvents Event.isActionCall (runAux env r k).1 ≤ r := by
  intro r
  induction r with
  | zero => intro k _; simp [runAux, countEvents]
  | succ r ih =>
      intro k hpre
      obtain ⟨evs, a, m, htick, hn⟩ := hpre 0 (by omega)
      rw [Nat.add_zero] at htick
      rw [runAux_tick_step env r k evs a m htick hn]
      obtain ⟨hd, hc, hs, ha⟩ := tick_counts_ok env k evs a m htick
      have hrec := ih (k + 1) (fun j hj => by
        have := hpre (j + 1) (by omega)
        rwa [show k + (j + 1) = k + 1 + j by omega] at this)
      refine ⟨hrec.1, ?_, ?_, ?_, ?_⟩ <;>
        simp [countEvents_append, hd, hc, hs, hrec.2.1, hrec.2.2.1, hrec.2.2.2.1] <;>
        omega

/-- Unconditionally, a run of `remaining` attempts makes at most
`remaining` driver action calls. -/
lemma runAux_actionCalls_le (env : Env) :
    ∀ (r k : Nat), countEvents Event.isActionCall (runAux env r k).1 ≤ r := by
  intro r
  induction r with
  | zero => simp [runAux, countEvents]
  | succ r ih =>
      intro k
      have ht := tick_actionCalls_le_one env k
      rcases h : tick env k with ⟨evs, res⟩
      rw [h] at ht
      cases res with
      | error e =>
          rw [runAux_tick_error env r k evs e h]
          simpa using ht.trans (by omega)
      | ok p =>
          rcases p with ⟨a, m⟩
          by_cases hn : a.action = WebActionType.NONE
          · rw [runAux_tick_none env r k evs a m h hn]
            simpa using ht.trans (by omega)
          · rw [runAux_tick_step env r k evs a m h hn]
            have := ih (k + 1)
            simp only [countEvents_append] at *
            omega

/-! ### Concrete environments used as witnesses and counterexamples -/

/-- A page with no elements at all. -/
def emptyPage : PageState where
  buttons := []
  anchors := []
  inputs := []

/-- A decision whose kind is `wait`. -/
def waitDecision : WebAction where
  action := "wait"
  target := ""
  content := ""
  termination_message := ""

/-- A decision whose kind is `click`. -/
def clickDecision : WebAction where
  action := "click"
  target := "the button"
  content := ""
  termination_message := ""

/-- Environment whose reasoning service always decides `wait`. -/
def envAlwaysWait : Env where
  capture := fun _ => Except.ok ()
  decisions := fun _ => waitDecision
  pages := fun _ => emptyPage
  matchOracle := fun _ _ => 0

/-- Environment whose reasoning service always decides `click` while the
page holds no elements; the element-matching call answers index 0. -/
def envClickEmpty : Env where
  capture := fun _ => Except.ok ()
  decisions := fun _ => clickDecision
  pages := fun _ => emptyPage
  matchOracle := fun _ _ => 0

/-! ### C1 -/

/-- C1 (amended): if all 15 ticks complete with a non-`none` decision
(no tick raising an exception), `perform_web_action` returns the fixed
exhaustion message, and the driver's action-performing methods (`click`,
`send_keys`) are invoked at most 15 times. -/
theorem C1_exhaustion_bound (env : Env)
    (h : ∀ j, j < 15 → tickOkNonNone env j) :
    (perform_web_action env).2 = Except.ok maxAttemptsMessage ∧
    countEvents Event.isActionCall (perform_web_action env).1 ≤ 15 := by
  have hx := runAux_exhaust env 15 0 (fun j hj => by
    rw [Nat.zero_add]; exact h j hj)
  exact ⟨hx.1, hx.2.2.2.2⟩

/-- Witness for C1: with the always-`wait` service the run exhausts its
budget, performing no driver action at all. -/
theorem C1_exhaustion_bound_witness :
    (perform_web_action envAlwaysWait).2 = Except.ok maxAttemptsMessage ∧
    countEvents Event.isActionCall (perform_web_action envAlwaysWait).1 ≤ 15 :=
  C1_exhaustion_bound envAlwaysWait (fun j _ =>
    ⟨[Event.sleepInterTick, Event.capture, Event.decisionCall, Event.sleepWait],
      waitDecision, "Waiting...", rfl, by decide⟩)

/-- Counterexample for C1 as stated: a decision sequence that never has
kind `none` (always `click`) on an element-less page makes
`perform_web_action` raise `IndexError` on the first tick instead of
returning the exhaustion message. -/
theorem C1_counterexample :
    envClickEmpty.decisions 0 = clickDecision ∧
    clickDecision.action ≠ WebActionType.NONE ∧
    (perform_web_action envClickEmpty).2 = Except.error PyError.indexError :=
  ⟨rfl, by decide, rfl⟩

/-! ### C9 -/

/-- C9: when all 15 ticks complete without a `none` decision, the run
returns the exhaustion message having made exactly 15 decision-service
calls, 15 page captures and 15 inter-tick sleeps — no part of a 16th
tick happens. -/
theorem C9_no_sixteenth_tick (env : Env)
    (h : ∀ j, j < 15 → tickOkNonNone env j) :
    (perform_web_action env).2 = Except.ok maxAttemptsMessage ∧
    countEvents Event.isDecisionCall (perform_web_action env).1 = 15 ∧
    countEvents Event.isCapture (perform_web_action env).1 = 15 ∧
    countEvents Event.isInterTickSleep (perform_web_action env).1 = 15 := by
  have hx := runAux_exhaust env 15 0 (fun j hj => by
    rw [Nat.zero_add]; exact h j hj)
  exact ⟨hx.1, hx.2.1, hx.2.2.1, hx.2.2.2.1⟩

/-- Witness for C9 with the always-`wait` service. -/
theorem C9_no_sixteenth_tick_witness :
    (perform_web_action envAlwaysWait).2 = Except.ok maxAttemptsMessage ∧
    countEvents Event.isDecisionCall (perform_web_action envAlwaysWait).1 = 15 ∧
    countEvents Event.isCapture (perform_web_action envAlwaysWait).1 = 15 ∧
    countEvents Event.isInterTickSleep (perform_web_action envAlwaysWait).1 = 15 :=
  C9_no_sixteenth_tick envAlwaysWait (fun j _ =>
    ⟨[Event.sleepInterTick, Event.capture, Event.decisionCall, Event.sleepWait],
      waitDecision, "Waiting...", rfl, by decide⟩)

/-! ### Reaching a given tick -/

/-- If the first `t < 15` ticks complete non-terminally, the run's final
result is the remaining loop's result starting at tick `t`. -/
lemma run_result_at (env : Env) (t : Nat) (ht : t < 15)
    (hpre : ∀ j, j < t → tickOkNonNone env j) :
    (perform_web_action env).2 = (runAux env (15 - t) t).2 := by
  have hx := runAux_result_reach env t 15 0 (by omega) (fun j hj => by
    rw [Nat.zero_add]; exact hpre j hj)
  simpa using hx

/-- A `none` decision makes the executor a no-op returning the
termination message. -/
lemma execute_none (env : Env) (k : Nat) (a : WebAction)
    (hn : a.action = WebActionType.NONE) :
    execute_web_action env k a = ([], Except.ok a.termination_message) := by
  unfold execute_web_action
  rw [hn]
  simp [WebActionType.NONE, WebActionType.CLICK, WebActionType.TYPE_TEXT,
    WebActionType.TYPE_ENTER, WebActionType.WAIT]

/-- The tick of a `none` decision: service calls only, no executor
effect. -/
lemma tick_none (env : Env) (t : Nat)
    (hc : env.capture t = Except.ok ())
    (hn : (env.decisions t).action = WebActionType.NONE) :
    tick env t = ([Event.sleepInterTick, Event.capture, Event.decisionCall],
      Except.ok (env.decisions t, (env.decisions t).termination_message)) := by
  have htick := tick_eq_of_capture_ok env t hc
  rw [execute_none env t (env.decisions t) hn] at htick
  simpa [Except.map] using htick

/-- Reaching a tick whose decision is `none` ends the run with that
decision's termination message. -/
lemma run_none_at (env : Env) (t : Nat) (ht : t < 15)
    (hpre : ∀ j, j < t → tickOkNonNone env j)
    (hc : env.capture t = Except.ok ())
    (hn : (env.decisions t).action = WebActionType.NONE) :
    (perform_web_action env).2 =
      Except.ok (env.decisions t).termination_message := by
  have htick := tick_none env t hc hn
  have hreach := run_result_at env t ht hpre
  obtain ⟨r', hr⟩ : ∃ r', 15 - t = r' + 1 := ⟨15 - t - 1, by omega⟩
  rw [hreach, hr,
    runAux_tick_none env r' t _ (env.decisions t) _ htick hn]

/-! ### C2 -/

/-- C2: when the loop reaches a tick whose decision has kind `none`
(page capture succeeded, all earlier ticks completed non-terminally),
the run returns exactly that decision's termination message, and that
tick performs no browser mutation — no click, no keystroke, no
navigation. -/
theorem C2_none_returns_termination (env : Env) (t : Nat) (ht : t < 15)
    (hpre : ∀ j, j < t → tickOkNonNone env j)
    (hc : env.capture t = Except.ok ())
    (hn : (env.decisions t).action = WebActionType.NONE) :
    (perform_web_action env).2 =
      Except.ok (env.decisions t).termination_message ∧
    countEvents Event.isBrowserMutation (tick env t).1 = 0 := by
  refine ⟨run_none_at env t ht hpre hc hn, ?_⟩
  rw [tick_none env t hc hn]
  rfl

/-- The immediate-termination environment: the very first decision is
`none` carrying a termination message. -/
def noneDecision : WebAction where
  action := "none"
  target := "ignored target"
  content := "ignored content"
  termination_message := "contact@example.com"

def envAlwaysNone : Env where
  capture := fun _ => Except.ok ()
  decisions := fun _ => noneDecision
  pages := fun _ => emptyPage
  matchOracle := fun _ _ => 0

/-- Witness for C2 at tick 0 of the immediate-termination
environment. -/
theorem C2_none_returns_termination_witness :
    (perform_web_action envAlwaysNone).2 =
      Except.ok (envAlwaysNone.decisions 0).termination_message ∧
    countEvents Event.isBrowserMutation (tick envAlwaysNone 0).1 = 0 :=
  C2_none_returns_termination envAlwaysNone 0 (by omega)
    (fun j hj => absurd hj (Nat.not_lt_zero j)) rfl rfl

/-! ### C10 -/

/-- C10: the termination message is returned verbatim with no
content validation — a `none` decision carrying an empty termination
message makes the run return the empty string. -/
theorem C10_empty_termination_returned (env : Env) (t : Nat) (ht : t < 15)
    (hpre : ∀ j, j < t → tickOkNonNone env j)
    (hc : env.capture t = Except.ok ())
    (hn : (env.decisions t).action = WebActionType.NONE)
    (hm : (env.decisions t).termination_message = "") :
    (perform_web_action env).2 = Except.ok "" := by
  rw [run_none_at env t ht hpre hc hn, hm]

/-- A `none` decision with an empty termination message. -/
def emptyNoneDecision : WebAction where
  action := "none"
  target := ""
  content := ""
  termination_message := ""

def envEmptyNone : Env where
  capture := fun _ => Except.ok ()
  decisions := fun _ => emptyNoneDecision
  pages := fun _ => emptyPage
  matchOracle := fun _ _ => 0

/-- Witness for C10: the run returns the empty string. -/
theorem C10_empty_termination_returned_witness :
    (perform_web_action envEmptyNone).2 = Except.ok "" :=
  C10_empty_termination_returned envEmptyNone 0 (by omega)
    (fun j hj => absurd hj (Nat.not_lt_zero j)) rfl rfl rfl

/-! ### C5 -/

/-- C5 (amended): explicit termination and exhaustion do resolve to a
returned string, but an unrecoverable error in a tick aborts
`perform_web_action` with that uncaught exception — not a result
string — and `open_web_page` likewise propagates a navigation failure as
an uncaught exception. -/
theorem C5_error_propagation (env : Env) (t : Nat) (ht : t < 15)
    (hpre : ∀ j, j < t → tickOkNonNone env j)
    (e : PyError) (herr : (tick env t).2 = Except.error e) :
    (perform_web_action env).2 = Except.error e ∧
    (∀ (e2 : PyError) (url : String),
      (open_web_page (Except.error e2) url).2 = Except.error e2) := by
  have hpair : tick env t = ((tick env t).1, Except.error e) := by
    rw [← herr]
  have hreach := run_result_at env t ht hpre
  obtain ⟨r', hr⟩ : ∃ r', 15 - t = r' + 1 := ⟨15 - t - 1, by omega⟩
  refine ⟨?_, fun e2 url => rfl⟩
  rw [hreach, hr, runAux_tick_error env r' t (tick env t).1 e hpair]

/-- A `type_text` decision aimed at a page without input elements. -/
def typeTextDecision : WebAction where
  action := "type_text"
  target := "search box"
  content := "laptops"
  termination_message := ""

def envTypeEmpty : Env where
  capture := fun _ => Except.ok ()
  decisions := fun _ => typeTextDecision
  pages := fun _ => emptyPage
  matchOracle := fun _ _ => 0

/-- Witness for C5 (amended), applying it at tick 0 of the failing
environment. -/
theorem C5_error_propagation_witness :
    (perform_web_action envTypeEmpty).2 = Except.error PyError.indexError ∧
    (∀ (e2 : PyError) (url : String),
      (open_web_page (Except.error e2) url).2 = Except.error e2) :=
  C5_error_propagation envTypeEmpty 0 (by omega)
    (fun j hj => absurd hj (Nat.not_lt_zero j)) PyError.indexError rfl

/-- Counterexample for C5 as stated: a failing tick makes
`perform_web_action` end in an uncaught `IndexError` rather than any
result string, and `open_web_page` re-raises a navigation error instead
of returning a message. -/
theorem C5_counterexample :
    (perform_web_action envClickEmpty).2 ≠
      Except.ok "Max attempts reached. Could not complete the action." ∧
    (perform_web_action envClickEmpty).2 = Except.error PyError.indexError ∧
    (open_web_page (Except.error (PyError.webDriverError "ERR_NAME_NOT_RESOLVED"))
        "http://example.invalid").2 =
      Except.error (PyError.webDriverError "ERR_NAME_NOT_RESOLVED") := by
  refine ⟨?_, rfl, rfl⟩
  intro h
  rw [show (perform_web_action envClickEmpty).2 = Except.error PyError.indexError
    from rfl] at h
  exact Except.noConfusion h

/-! ### Python indexing semantics -/

lemma pyGet_out_of_range {α : Type} (xs : List α) (i : Int)
    (h : i < -(xs.length : Int) ∨ (xs.length : Int) ≤ i) :
    pyGet xs i = Except.error PyError.indexError := by
  unfold pyGet
  rcases h with h | h
  · have h1 : i < 0 := by omega
    have h2 : i + (xs.length : Int) < 0 := by omega
    simp only [if_pos h1, if_pos h2]
  · have h1 : ¬ i < 0 := by omega
    simp only [if_neg h1]
    rw [List.get?_eq_none.mpr (by omega)]

lemma pyGet_in_range {α : Type} (xs : List α) (i : Int)
    (h0 : -(xs.length : Int) ≤ i) (h1 : i < (xs.length : Int)) :
    ∃ x, xs.get? ((if i < 0 then i + xs.length else i).toNat) = some x ∧
      pyGet xs i = Except.ok x := by
  unfold pyGet
  have hj0 : ¬ (if i < 0 then i + (xs.length : Int) else i) < 0 := by
    split <;> omega
  have hlt : ((if i < 0 then i + (xs.length : Int) else i)).toNat < xs.length := by
    split <;> omega
  rw [if_neg hj0, List.get?_eq_get hlt]
  exact ⟨xs.get ⟨_, hlt⟩, rfl, rfl⟩

/-! ### C3 -/

/-- The raw index the reasoning service returns for a clickable
query. -/
def oracleIdx (env : Env) (elements : List WebElement) (target : String) : Int :=
  env.matchOracle (clickableDicts elements) target

/-- C3 (amended): `match_element_idx` passes the service's index
through with no validation, and `match_clickable` applies Python list
indexing to the unfiltered element list: an index outside
`[-len, len)` raises `IndexError` (no `ResolutionError` exists in the
code), while an index in `[-len, 0)` silently selects an element
counted from the end of the list instead of failing. -/
theorem C3_no_index_validation (env : Env) (elements : List WebElement)
    (target : String) :
    (match_element_idx env (clickableDicts elements) target).2 =
      oracleIdx env elements target ∧
    (oracleIdx env elements target < -(elements.length : Int) ∨
        (elements.length : Int) ≤ oracleIdx env elements target →
      (match_clickable env elements target).2 =
        Except.error PyError.indexError) ∧
    (-(elements.length : Int) ≤ oracleIdx env elements target →
      oracleIdx env elements target < (elements.length : Int) →
      ∃ e, elements.get?
          ((if oracleIdx env elements target < 0 then
              oracleIdx env elements target + elements.length
            else oracleIdx env elements target).toNat) = some e ∧
        (match_clickable env elements target).2 = Except.ok e) := by
  refine ⟨rfl, ?_, ?_⟩
  · intro h
    exact pyGet_out_of_range elements (oracleIdx env elements target) h
  · intro h0 h1
    exact pyGet_in_range elements (oracleIdx env elements target) h0 h1

/-- Two visible clickable elements. -/
def elemA : WebElement where
  text := "Accept"
  name := none
  placeholder := none
  displayed := true
  ref := "elemA"

def elemB : WebElement where
  text := "Buy"
  name := none
  placeholder := none
  displayed := true
  ref := "elemB"

/-- A service stub answering the out-of-range index 7. -/
def envBigOracle : Env where
  capture := fun _ => Except.ok ()
  decisions := fun _ => clickDecision
  pages := fun _ => { buttons := [elemA], anchors := [], inputs := [] }
  matchOracle := fun _ _ => 7

/-- Witness for C3 (amended): index 7 against a one-element list is an
`IndexError`. -/
theorem C3_no_index_validation_witness :
    (match_clickable envBigOracle [elemA] "the button").2 =
      Except.error PyError.indexError :=
  (C3_no_index_validation envBigOracle [elemA] "the button").2.1
    (Or.inr (by decide))

/-- A service stub answering the out-of-range index `-1`. -/
def envNegOracle : Env where
  capture := fun _ => Except.ok ()
  decisions := fun _ => clickDecision
  pages := fun _ => { buttons := [elemA, elemB], anchors := [], inputs := [] }
  matchOracle := fun _ _ => -1

/-- Counterexample for C3 as stated: the stub returns `-1`, which lies
outside `[0, 2)`, yet resolution yields the last element as a fallback
instead of failing. -/
theorem C3_counterexample :
    (match_element_idx envNegOracle (clickableDicts [elemA, elemB])
        "the button").2 = -1 ∧
    (match_clickable envNegOracle [elemA, elemB] "the button").2 =
      Except.ok elemB :=
  ⟨rfl, rfl⟩

/-! ### C4 -/

/-- Membership in an enumerate-filter-map pipeline over the element
list. -/
lemma mem_enumFilterMap {β : Type} (l : List WebElement)
    (f : Nat × WebElement → β) (d : β) :
    d ∈ (l.enum.filter (fun p => p.2.displayed)).map f ↔
      ∃ i e, l.get? i = some e ∧ e.displayed = true ∧ d = f (i, e) := by
  simp only [List.mem_map, List.mem_filter]
  constructor
  · rintro ⟨⟨i, e⟩, ⟨hmem, hdisp⟩, rfl⟩
    refine ⟨i, e, ?_, hdisp, rfl⟩
    rw [List.get?_eq_getElem?]
    exact List.mk_mem_enum_iff_getElem?.mp hmem
  · rintro ⟨i, e, hget, hdisp, rfl⟩
    refine ⟨(i, e), ⟨?_, hdisp⟩, rfl⟩
    rw [List.get?_eq_getElem?] at hget
    exact List.mk_mem_enum_iff_getElem?.mpr hget

/-- C4 (amended): the descriptor lists contain exactly the visible
elements, but each descriptor carries the element's position in the
UNFILTERED enumeration (so a returned index maps back into the
unfiltered list, not the filtered one). -/
theorem C4_descriptor_indices (elements : List WebElement) :
    (∀ d, d ∈ clickableDicts elements → ∃ i e,
        elements.get? i = some e ∧ e.displayed = true ∧
        d = ElemDict.clickable i e.text) ∧
    (∀ i e, elements.get? i = some e → e.displayed = true →
      ElemDict.clickable i e.text ∈ clickableDicts elements) ∧
    (∀ d, d ∈ inputDicts elements → ∃ i e,
        elements.get? i = some e ∧ e.displayed = true ∧
        d = ElemDict.input i e.name e.placeholder) ∧
    (∀ i e, elements.get? i = some e → e.displayed = true →
      ElemDict.input i e.name e.placeholder ∈ inputDicts elements) := by
  refine ⟨?_, ?_, ?_, ?_⟩
  · intro d hd
    exact (mem_enumFilterMap elements _ d).mp hd
  · intro i e hget hdisp
    exact (mem_enumFilterMap elements _ _).mpr ⟨i, e, hget, hdisp, rfl⟩
  · intro d hd
    exact (mem_enumFilterMap elements _ d).mp hd
  · intro i e hget hdisp
    exact (mem_enumFilterMap elements _ _).mpr ⟨i, e, hget, hdisp, rfl⟩

/-- An element the driver reports as not displayed. -/
def elemHidden : WebElement where
  text := "Hidden"
  name := none
  placeholder := none
  displayed := false
  ref := "elemH"

/-- Witness for C4 (amended): in `[elemHidden, elemB]` the visible
element appears with index 1 — its unfiltered position. -/
theorem C4_descriptor_indices_witness :
    ElemDict.clickable 1 "Buy" ∈ clickableDicts [elemHidden, elemB] :=
  (C4_descriptor_indices [elemHidden, elemB]).2.1 1 elemB rfl rfl

/-- A page mixing an invisible and a visible element; the matching
service answers 1, the index carried by the only descriptor. -/
def envHidden : Env where
  capture := fun _ => Except.ok ()
  decisions := fun _ => clickDecision
  pages := fun _ => { buttons := [elemHidden, elemB], anchors := [], inputs := [] }
  matchOracle := fun _ _ => 1

/-- Counterexample for C4 as stated: with one invisible and one visible
element, the single descriptor carries index 1 (position in the
unfiltered enumeration), not index 0 (position in the filtered list),
and resolving that index goes back into the unfiltered list. -/
theorem C4_counterexample :
    clickableDicts [elemHidden, elemB] = [ElemDict.clickable 1 "Buy"] ∧
    clickableDicts [elemHidden, elemB] ≠ [ElemDict.clickable 0 "Buy"] ∧
    (match_clickable envHidden [elemHidden, elemB] "the button").2 =
      Except.ok elemB :=
  ⟨rfl, by decide, rfl⟩

/-! ### C6 -/

lemma pyGet_nil {α : Type} (i : Int) :
    pyGet ([] : List α) i = Except.error PyError.indexError :=
  pyGet_out_of_range [] i (by simp; omega)

lemma pyGet_cases {α : Type} (xs : List α) (i : Int) :
    pyGet xs i = Except.error PyError.indexError ∨
      ∃ x, pyGet xs i = Except.ok x := by
  simp only [pyGet]
  by_cases hj : (if i < 0 then i + (xs.length : Int) else i) < 0
  · rw [if_pos hj]
    exact Or.inl rfl
  · rw [if_neg hj]
    rcases hx : xs.get? (if i < 0 then i + (xs.length : Int) else i).toNat
      with _ | x
    · exact Or.inl rfl
    · exact Or.inr ⟨x, rfl⟩

lemma match_clickable_nil (env : Env) (target : String) :
    match_clickable env [] target =
      ([Event.resolverCall], Except.error PyError.indexError) := by
  simp only [match_clickable, match_element_idx]
  rw [pyGet_nil]

lemma match_input_nil (env : Env) (target : String) :
    match_input env [] target =
      ([Event.resolverCall], Except.error PyError.indexError) := by
  simp only [match_input, match_element_idx]
  rw [pyGet_nil]

/-- C6 (amended): with zero elements of the required tag on the page the
executor does not fail with an `ElementNotFoundError` (no such error
exists in the code); the resolver is still consulted and the indexing of
the empty list raises a plain `IndexError`. When elements exist but all
are invisible, the action can even succeed against an invisible element
(see the counterexample). -/
theorem C6_empty_pool (env : Env) (k : Nat) (action : WebAction) :
    (action.action = WebActionType.CLICK → (env.pages k).buttons = [] →
      (env.pages k).anchors = [] →
      (execute_web_action env k action).2 = Except.error PyError.indexError) ∧
    (action.action = WebActionType.TYPE_TEXT → (env.pages k).inputs = [] →
      (execute_web_action env k action).2 = Except.error PyError.indexError) ∧
    (action.action = WebActionType.TYPE_ENTER → (env.pages k).inputs = [] →
      (execute_web_action env k action).2 = Except.error PyError.indexError) := by
  refine ⟨?_, ?_, ?_⟩
  · intro ha hb han
    simp only [execute_web_action]
    rw [ha, if_pos rfl, hb, han]
    rw [show ([] : List WebElement) ++ [] = [] from rfl, match_clickable_nil]
  · intro ha hi
    simp only [execute_web_action]
    rw [ha, if_neg (by decide), if_pos rfl, hi, match_input_nil]
  · intro ha hi
    simp only [execute_web_action]
    rw [ha, if_neg (by decide), if_neg (by decide), if_pos rfl, hi,
      match_input_nil]

/-- Witness for C6 (amended): `click` on the element-less page. -/
theorem C6_empty_pool_witness :
    (execute_web_action envClickEmpty 0 clickDecision).2 =
      Except.error PyError.indexError :=
  (C6_empty_pool envClickEmpty 0 clickDecision).1 rfl rfl rfl

/-- A page whose only button is not displayed; the matcher stub answers
index 0 even though the descriptor list it received is empty. -/
def envInvisibleOnly : Env where
  capture := fun _ => Except.ok ()
  decisions := fun _ => clickDecision
  pages := fun _ => { buttons := [elemHidden], anchors := [], inputs := [] }
  matchOracle := fun _ _ => 0

/-- Counterexample for C6 as stated: the page has zero VISIBLE
clickables (the descriptor list is empty), yet the executor does not
fail at all — it clicks the invisible element. -/
theorem C6_counterexample :
    clickableDicts [elemHidden] = [] ∧
    elemHidden.displayed = false ∧
    (execute_web_action envInvisibleOnly 0 clickDecision).2 =
      Except.ok "Clicked the element: elemH" ∧
    Event.click "elemH" ∈ (execute_web_action envInvisibleOnly 0 clickDecision).1 :=
  ⟨rfl, rfl, rfl, by decide⟩

/-! ### C7 -/

/-- The closed action taxonomy. -/
def actionTaxonomy : List String :=
  [WebActionType.CLICK, WebActionType.TYPE_TEXT, WebActionType.TYPE_ENTER,
   WebActionType.WAIT, WebActionType.NONE]

/-- The executor ends in the `raise ValueError` branch exactly for
out-of-taxonomy action kinds. -/
lemma execute_valueError_iff (env : Env) (k : Nat) (a : WebAction) (msg : String) :
    (execute_web_action env k a).2 = Except.error (PyError.valueError msg) ↔
      a.action ∉ actionTaxonomy ∧
        msg = "Unsupported action type: " ++ a.action := by
  have m1 : WebActionType.CLICK ∈ actionTaxonomy := by decide
  have m2 : WebActionType.TYPE_TEXT ∈ actionTaxonomy := by decide
  have m3 : WebActionType.TYPE_ENTER ∈ actionTaxonomy := by decide
  have m4 : WebActionType.WAIT ∈ actionTaxonomy := by decide
  have m5 : WebActionType.NONE ∈ actionTaxonomy := by decide
  unfold execute_web_action
  split_ifs with h1 h2 h3 h4 h5
  · rcases pyGet_cases ((env.pages k).buttons ++ (env.pages k).anchors)
        (env.matchOracle
          (clickableDicts ((env.pages k).buttons ++ (env.pages k).anchors))
          a.target) with hp | ⟨x, hp⟩ <;>
      simp [match_clickable, match_element_idx, hp, h1, m1]
  · rcases pyGet_cases (env.pages k).inputs
        (env.matchOracle (inputDicts (env.pages k).inputs) a.target)
      with hp | ⟨x, hp⟩ <;>
      simp [match_input, match_element_idx, hp, h2, m2]
  · rcases pyGet_cases (env.pages k).inputs
        (env.matchOracle (inputDicts (env.pages k).inputs) a.target)
      with hp | ⟨x, hp⟩ <;>
      simp [match_input, match_element_idx, hp, h3, m3]
  · simp [h4, m4]
  · simp [h5, m5]
  · have hno : a.action ∉ actionTaxonomy := by
      simp [actionTaxonomy, h1, h2, h3, h4, h5]
    simp [hno, eq_comm]

/-- C7: an out-of-taxonomy action kind makes the executor raise the
unsupported-action error carrying that kind — never a coercion to a
fallback action — and for the five in-taxonomy kinds that error branch
is unreachable. -/
theorem C7_closed_taxonomy (env : Env) (k : Nat) (action : WebAction) :
    (action.action ∉ actionTaxonomy →
      (execute_web_action env k action).2 =
        Except.error (PyError.valueError
          ("Unsupported action type: " ++ action.action))) ∧
    (action.action ∈ actionTaxonomy → ∀ msg,
      (execute_web_action env k action).2 ≠
        Except.error (PyError.valueError msg)) := by
  constructor
  · intro hnot
    exact (execute_valueError_iff env k action _).mpr ⟨hnot, rfl⟩
  · intro hmem msg hEq
    exact ((execute_valueError_iff env k action msg).mp hEq).1 hmem

/-- A decision kind outside the closed taxonomy. -/
def scrollDecision : WebAction where
  action := "scroll"
  target := "the page"
  content := ""
  termination_message := ""

/-- Witness for C7: `scroll` raises the unsupported-action error. -/
theorem C7_closed_taxonomy_witness :
    (execute_web_action envAlwaysWait 0 scrollDecision).2 =
      Except.error (PyError.valueError "Unsupported action type: scroll") :=
  (C7_closed_taxonomy envAlwaysWait 0 scrollDecision).1 (by decide)

/-! ### C8 -/

/-- C8: per-kind behavior of the executor. `click` resolves against the
union of buttons and hyperlinks and clicks the resolved element;
`type_text` resolves against the input elements and sends the decision's
content, returning a message carrying the content and the element
reference; `type_enter` sends the Enter key; `wait` returns the literal
waiting notice without any resolver call. -/
theorem C8_executor_behavior (env : Env) (k : Nat) (action : WebAction) :
    (action.action = WebActionType.CLICK → ∀ e,
      (match_clickable env ((env.pages k).buttons ++ (env.pages k).anchors)
          action.target).2 = Except.ok e →
      execute_web_action env k action =
        ([Event.resolverCall, Event.click e.ref],
         Except.ok ("Clicked the element: " ++ e.ref))) ∧
    (action.action = WebActionType.TYPE_TEXT → ∀ e,
      (match_input env (env.pages k).inputs action.target).2 = Except.ok e →
      execute_web_action env k action =
        ([Event.resolverCall, Event.sendKeys e.ref action.content],
         Except.ok ("Typed '" ++ action.content ++ "' in the input field: "
           ++ e.ref))) ∧
    (action.action = WebActionType.TYPE_ENTER → ∀ e,
      (match_input env (env.pages k).inputs action.target).2 = Except.ok e →
      execute_web_action env k action =
        ([Event.resolverCall, Event.sendKeys e.ref Keys.RETURN],
         Except.ok ("Pressed Enter in the input field: " ++ e.ref))) ∧
    (action.action = WebActionType.WAIT →
      execute_web_action env k action =
        ([Event.sleepWait], Except.ok "Waiting...")) := by
  refine ⟨?_, ?_, ?_, ?_⟩
  · intro ha e he
    have hmc : match_clickable env
        ((env.pages k).buttons ++ (env.pages k).anchors) action.target
        = ([Event.resolverCall], Except.ok e) := by
      rw [← he]
      rfl
    simp only [execute_web_action]
    rw [ha, if_pos rfl, hmc]
    rfl
  · intro ha e he
    have hmi : match_input env (env.pages k).inputs action.target
        = ([Event.resolverCall], Except.ok e) := by
      rw [← he]
      rfl
    simp only [execute_web_action]
    rw [ha, if_neg (by decide), if_pos rfl, hmi]
    rfl
  · intro ha e he
    have hmi : match_input env (env.pages k).inputs action.target
        = ([Event.resolverCall], Except.ok e) := by
      rw [← he]
      rfl
    simp only [execute_web_action]
    rw [ha, if_neg (by decide), if_neg (by decide), if_pos rfl, hmi]
    rfl
  · intro ha
    simp only [execute_web_action]
    rw [ha, if_neg (by decide), if_neg (by decide), if_neg (by decide),
      if_pos rfl]

/-- A page with one visible button, resolved by the stub to index 0. -/
def envOneButton : Env where
  capture := fun _ => Except.ok ()
  decisions := fun _ => clickDecision
  pages := fun _ => { buttons := [elemA], anchors := [], inputs := [] }
  matchOracle := fun _ _ => 0

/-- Witness for C8, exercising the `click` branch. -/
theorem C8_executor_behavior_witness :
    execute_web_action envOneButton 0 clickDecision =
      ([Event.resolverCall, Event.click "elemA"],
       Except.ok "Clicked the element: elemA") :=
  (C8_executor_behavior envOneButton 0 clickDecision).1 rfl elemA rfl
